import Mathlib

/-!
Verification of the vue-pdf-embed page-rendering core against its design
specification.  The TypeScript sources `src/VuePdfEmbed.vue` and
`src/PdfPage.vue` are shallowly embedded: JavaScript numbers are modelled as
rationals (with a separate model carrying IEEE-754 Infinity/NaN where division
by zero matters), the JavaScript `%` operator on integers is `Int.tmod`
(remainder with the sign of the dividend), JavaScript truthiness is made
explicit, and the event-driven visibility state is modelled as explicit state
passing over event lists.
-/

namespace VuePdfEmbed

/-! ### Visibility tracking and the render set (`src/VuePdfEmbed.vue`, `onVisibilityChanged`) -/

/-- Component state relevant to visibility-driven rendering: the set of
currently visible page numbers (`visiblePages`) and the derived set of pages
eligible for rendering (`pagesToRender`). -/
structure ViewerState where
  visiblePages : Finset Int
  pagesToRender : Finset Int
deriving DecidableEq

/-- Both sets start empty (`ref<number[]>([])` and `new Set<number>()`). -/
def initialViewerState : ViewerState := ⟨∅, ∅⟩

/-- The recomputation of `pagesToRender` performed inside `onVisibilityChanged`
(`src/VuePdfEmbed.vue` lines 289-299): for each visible page `v`, the pages
`[v-1, v, v+1]` filtered by `num > 0 && num <= doc.numPages` (the document is
taken as loaded, with `numPages` pages). -/
def computePagesToRender (numPages : Int) (visiblePages : Finset Int) : Finset Int :=
  visiblePages.biUnion (fun v =>
    ({v - 1, v, v + 1} : Finset Int).filter (fun num => 0 < num ∧ num ≤ numPages))

/-- The `onVisibilityChanged` handler (`src/VuePdfEmbed.vue` lines 276-300):
adds or removes `pageNum` from the visible set, then recomputes
`pagesToRender` in full from the visible set. -/
def onVisibilityChanged (numPages : Int) (s : ViewerState) (pageNum : Int)
    (isVisible : Bool) : ViewerState :=
  let visible :=
    if isVisible then insert pageNum s.visiblePages else s.visiblePages.erase pageNum
  { visiblePages := visible, pagesToRender := computePagesToRender numPages visible }

/-- Runs a sequence of visibility-changed events from the initial state. -/
def runVisibilityEvents (numPages : Int) (events : List (Int × Bool)) : ViewerState :=
  events.foldl (fun s e => onVisibilityChanged numPages s e.1 e.2) initialViewerState

/-- The filtered neighbour set equals the spec's clamped union form. -/
theorem computePagesToRender_eq (numPages : Int) (vs : Finset Int) :
    computePagesToRender numPages vs
      = vs.biUnion (fun v => ({v - 1, v, v + 1} : Finset Int) ∩ Finset.Icc 1 numPages) := by
  unfold computePagesToRender
  ext n
  simp only [Finset.mem_biUnion, Finset.mem_filter, Finset.mem_inter, Finset.mem_Icc,
    Finset.mem_insert, Finset.mem_singleton]
  constructor
  · rintro ⟨v, hv, h1, h2, h3⟩
    exact ⟨v, hv, h1, by omega, h3⟩
  · rintro ⟨v, hv, h1, h2, h3⟩
    exact ⟨v, hv, h1, by omega, h3⟩

/-- Invariant: `pagesToRender` always equals the full recomputation from
`visiblePages`. -/
def ViewerInv (numPages : Int) (s : ViewerState) : Prop :=
  s.pagesToRender = computePagesToRender numPages s.visiblePages

theorem foldl_visibility_inv (numPages : Int) (l : List (Int × Bool)) :
    ∀ s : ViewerState, ViewerInv numPages s →
      ViewerInv numPages (l.foldl (fun s e => onVisibilityChanged numPages s e.1 e.2) s) := by
  induction l with
  | nil => intro s hs; exact hs
  | cons e t ih =>
      intro s hs
      exact ih _ (by simp [ViewerInv, onVisibilityChanged])

theorem runVisibilityEvents_inv (numPages : Int) (events : List (Int × Bool)) :
    ViewerInv numPages (runVisibilityEvents numPages events) := by
  exact foldl_visibility_inv numPages events initialViewerState
    (by simp [ViewerInv, initialViewerState, computePagesToRender])

/-- C1: after every sequence of visibility-changed events, the render set
equals the union over visible pages `v` of `{v-1, v, v+1} ∩ [1, numPages]`,
recomputed in full from the visible set; in particular visible `{5}` with 10
pages yields `{4,5,6}`, visible `{1}` yields `{1,2}`, and an emptied visible
set yields `∅`. -/
theorem renderSet_recomputed_from_visibleSet (numPages : Int) (events : List (Int × Bool)) :
    (runVisibilityEvents numPages events).pagesToRender
      = (runVisibilityEvents numPages events).visiblePages.biUnion
          (fun v => ({v - 1, v, v + 1} : Finset Int) ∩ Finset.Icc 1 numPages) ∧
    (runVisibilityEvents 10 [(5, true)]).visiblePages = {5} ∧
    (runVisibilityEvents 10 [(5, true)]).pagesToRender = {4, 5, 6} ∧
    (runVisibilityEvents 10 [(1, true)]).pagesToRender = {1, 2} ∧
    (runVisibilityEvents 10 [(5, true), (5, false)]).visiblePages = ∅ ∧
    (runVisibilityEvents 10 [(5, true), (5, false)]).pagesToRender = ∅ := by
  refine ⟨?_, by decide, by decide, by decide, by decide, by decide⟩
  have h := runVisibilityEvents_inv numPages events
  rw [ViewerInv] at h
  rw [h, computePagesToRender_eq]

/-! ### Effective rotation (`src/PdfPage.vue` lines 173-175 and 360-361) -/

/-- `const pageRotation = ((props.rotation % 360) + page.rotate) % 360`.
JavaScript `%` on integer-valued numbers is truncated remainder (`Int.tmod`),
keeping the sign of the dividend. -/
def effectiveRotation (rotation intrinsic : Int) : Int :=
  Int.tmod (Int.tmod rotation 360 + intrinsic) 360

/-- `const isTransposed = !!((pageRotation / 90) % 2)`.  For rotations that are
multiples of 90 the JavaScript division is exact, so it coincides with
truncated integer division. -/
def isTransposed (pageRotation : Int) : Bool :=
  Int.tmod (Int.tdiv pageRotation 90) 2 != 0

/-- For nonnegative operands the truncated remainder coincides with the
euclidean one. -/
theorem tmod_eq_emod_of_nonneg (a b : Int) (ha : 0 ≤ a) (hb : 0 ≤ b) :
    a.tmod b = a % b := by
  obtain ⟨m, rfl⟩ := Int.eq_ofNat_of_zero_le ha
  obtain ⟨n, rfl⟩ := Int.eq_ofNat_of_zero_le hb
  rw [← Int.ofNat_tmod]
  omega

/-- C4 counterexample: for requested rotation `-90` (a negative multiple of
90) and intrinsic rotation `0`, the code computes `-90`, which is not in
`{0, 90, 180, 270}` and differs from the mathematical
`(r mod 360 + intrinsic) mod 360 = 270`. -/
theorem effectiveRotation_neg_counterexample :
    effectiveRotation (-90) 0 = -90 ∧
    ¬ ((-90 : Int) = 0 ∨ (-90 : Int) = 90 ∨ (-90 : Int) = 180 ∨ (-90 : Int) = 270) ∧
    effectiveRotation (-90) 0 ≠ ((-90 : Int) % 360 + 0) % 360 := by
  decide

/-- C4 (amended): for every nonnegative requested rotation that is a multiple
of 90 and every intrinsic rotation in {0, 90, 180, 270}, the effective
rotation equals `(r mod 360 + intrinsic) mod 360` (mathematical modulus) and
lies in {0, 90, 180, 270}; negative requested rotations are not normalized
(the JavaScript remainder keeps their sign). -/
theorem effectiveRotation_nonneg_spec (r i : Int) (hr : 0 ≤ r) (h90 : r % 90 = 0)
    (hi : i = 0 ∨ i = 90 ∨ i = 180 ∨ i = 270) :
    effectiveRotation r i = (r % 360 + i) % 360 ∧
    (effectiveRotation r i = 0 ∨ effectiveRotation r i = 90 ∨
     effectiveRotation r i = 180 ∨ effectiveRotation r i = 270) := by
  unfold effectiveRotation
  have hi0 : 0 ≤ i := by rcases hi with h | h | h | h <;> omega
  rw [tmod_eq_emod_of_nonneg r 360 hr (by omega),
    tmod_eq_emod_of_nonneg (r % 360 + i) 360
      (by have := Int.emod_nonneg r (show (360 : Int) ≠ 0 by omega); omega) (by omega)]
  rcases hi with h | h | h | h <;> subst h <;> exact ⟨rfl, by omega⟩

/-- Witness for the amended C4 statement at rotation 450 with intrinsic 90. -/
theorem effectiveRotation_nonneg_spec_witness :
    effectiveRotation 450 90 = ((450 : Int) % 360 + 90) % 360 ∧
    (effectiveRotation 450 90 = 0 ∨ effectiveRotation 450 90 = 90 ∨
     effectiveRotation 450 90 = 180 ∨ effectiveRotation 450 90 = 270) :=
  effectiveRotation_nonneg_spec 450 90 (by decide) (by decide) (by decide)

/-! ### Page geometry (`src/PdfPage.vue`, `getPageDimensions` and `renderPage`) -/

/-- JavaScript truthiness of an optional numeric prop: `undefined` and `0`
are falsy. -/
def jsTruthy (x : Option ℚ) : Bool :=
  match x with
  | none => false
  | some q => q != 0

/-- `getPageDimensions` (`src/PdfPage.vue` lines 50-63): if the height prop is
truthy and the width prop is not, size height-first (`width = height / ratio`);
otherwise width is the width prop or, when undefined, the container width, and
`height = width * ratio`.  Returns `(width, height)`. -/
def getPageDimensions (heightProp widthProp : Option ℚ) (containerWidth ratio : ℚ) : ℚ × ℚ :=
  if jsTruthy heightProp && !jsTruthy widthProp then
    let height := heightProp.getD 0
    (height / ratio, height)
  else
    let width := widthProp.getD containerWidth
    (width, width * ratio)

/-- A page's content box as exposed by `page.view = [x0, y0, x1, y1]`. -/
structure PageView where
  x0 : ℚ
  y0 : ℚ
  x1 : ℚ
  y1 : ℚ

/-- `const viewWidth = page.view[2] - page.view[0]`. -/
def viewWidth (v : PageView) : ℚ := v.x1 - v.x0

/-- `const viewHeight = page.view[3] - page.view[1]`. -/
def viewHeight (v : PageView) : ℚ := v.y1 - v.y0

/-- The ratio argument passed to `getPageDimensions`
(`isTransposed ? viewWidth / viewHeight : viewHeight / viewWidth`). -/
def pageRatio (vw vh : ℚ) (transposed : Bool) : ℚ :=
  if transposed then vw / vh else vh / vw

/-- Result of the geometry computation at the start of `renderPage`
(`src/PdfPage.vue` lines 173-190). -/
structure GeometryResult where
  transposed : Bool
  ratio : ℚ
  width : ℚ
  height : ℚ
  pageScale : ℚ
deriving DecidableEq

/-- The geometry computation of `renderPage`: effective rotation,
transposition, aspect ratio from the content box, page dimensions, and the
content-to-pixel scale `actualWidth / (isTransposed ? viewHeight : viewWidth)`. -/
def resolveGeometry (view : PageView) (intrinsic rotationProp : Int)
    (heightProp widthProp : Option ℚ) (containerWidth : ℚ) : GeometryResult :=
  let pageRotation := effectiveRotation rotationProp intrinsic
  let transposed := isTransposed pageRotation
  let ratio := pageRatio (viewWidth view) (viewHeight view) transposed
  let wh := getPageDimensions heightProp widthProp containerWidth ratio
  { transposed := transposed
    ratio := ratio
    width := wh.1
    height := wh.2
    pageScale := wh.1 / (if transposed then viewHeight view else viewWidth view) }

/-- C3: content box [0,0,600,800] with intrinsic rotation 0, requested
rotation 90 and requested width 300 yields transposed = true, ratio = 600/800
and height 225; requesting height 225 with no width instead yields width 300;
and in general, for every non-degenerate content box, either transposition and
nonzero width, width-first sizing and height-first sizing are mutual inverses. -/
theorem geometry_sizing_roundtrip :
    (resolveGeometry ⟨0, 0, 600, 800⟩ 0 90 none (some 300) 1000).transposed = true ∧
    (resolveGeometry ⟨0, 0, 600, 800⟩ 0 90 none (some 300) 1000).ratio = 600 / 800 ∧
    (resolveGeometry ⟨0, 0, 600, 800⟩ 0 90 none (some 300) 1000).height = 225 ∧
    (resolveGeometry ⟨0, 0, 600, 800⟩ 0 90 (some 225) none 1000).width = 300 ∧
    (∀ (v : PageView) (t : Bool) (w cw : ℚ),
      0 < viewWidth v → 0 < viewHeight v → w ≠ 0 →
      getPageDimensions none (some w) cw (pageRatio (viewWidth v) (viewHeight v) t)
          = (w, w * pageRatio (viewWidth v) (viewHeight v) t) ∧
      getPageDimensions (some (w * pageRatio (viewWidth v) (viewHeight v) t)) none cw
          (pageRatio (viewWidth v) (viewHeight v) t)
          = (w, w * pageRatio (viewWidth v) (viewHeight v) t)) := by
  have ht : isTransposed (effectiveRotation 90 0) = true := by decide
  refine ⟨?_, ?_, ?_, ?_, ?_⟩
  · simp only [resolveGeometry]
    exact ht
  · norm_num [resolveGeometry, pageRatio, ht, viewWidth, viewHeight]
  · norm_num [resolveGeometry, pageRatio, getPageDimensions, jsTruthy, ht, viewWidth, viewHeight]
  · norm_num [resolveGeometry, pageRatio, getPageDimensions, jsTruthy, ht, viewWidth, viewHeight]
  intro v t w cw hvw hvh hw
  have hr : pageRatio (viewWidth v) (viewHeight v) t ≠ 0 := by
    cases t
    · simpa [pageRatio] using div_ne_zero hvh.ne' hvw.ne'
    · simpa [pageRatio] using div_ne_zero hvw.ne' hvh.ne'
  constructor
  · simp [getPageDimensions, jsTruthy]
  · have hwr : w * pageRatio (viewWidth v) (viewHeight v) t ≠ 0 := mul_ne_zero hw hr
    simp only [getPageDimensions, jsTruthy, Bool.and_eq_true, bne_iff_ne, ne_eq, hwr,
      not_false_eq_true, Bool.not_eq_eq_eq_not, Bool.not_false, if_true, Option.getD_some]
    rw [if_pos (by simp [hwr]), mul_div_assoc, div_self hr, mul_one]

/-- Witness for C3's round-trip conjunct at the content box [0,0,600,800],
transposed, width 300. -/
theorem geometry_sizing_roundtrip_witness :
    (0 : ℚ) < viewWidth ⟨0, 0, 600, 800⟩ ∧ (0 : ℚ) < viewHeight ⟨0, 0, 600, 800⟩ ∧
    (300 : ℚ) ≠ 0 ∧
    (getPageDimensions none (some 300) 1000
        (pageRatio (viewWidth ⟨0, 0, 600, 800⟩) (viewHeight ⟨0, 0, 600, 800⟩) true)
        = (300, 300 * pageRatio (viewWidth ⟨0, 0, 600, 800⟩) (viewHeight ⟨0, 0, 600, 800⟩) true) ∧
      getPageDimensions
        (some (300 * pageRatio (viewWidth ⟨0, 0, 600, 800⟩) (viewHeight ⟨0, 0, 600, 800⟩) true))
        none 1000 (pageRatio (viewWidth ⟨0, 0, 600, 800⟩) (viewHeight ⟨0, 0, 600, 800⟩) true)
        = (300, 300 * pageRatio (viewWidth ⟨0, 0, 600, 800⟩) (viewHeight ⟨0, 0, 600, 800⟩) true)) :=
  ⟨by norm_num [viewWidth], by norm_num [viewHeight], by norm_num,
    geometry_sizing_roundtrip.2.2.2.2 ⟨0, 0, 600, 800⟩ true 300 1000
      (by norm_num [viewWidth]) (by norm_num [viewHeight]) (by norm_num)⟩

/-! ### IEEE-style special values and the zero-area content box -/

/-- JavaScript numbers including the special values produced by division by
zero.  Finite values are exact rationals. -/
inductive JSNum where
  | num (q : ℚ)
  | inf
  | negInf
  | nan
deriving DecidableEq

/-- JavaScript division, including the IEEE-754 special cases: a nonzero
finite number divided by zero gives a signed infinity, and `0 / 0` gives NaN.
(Signed zero is not modelled; division by a zero takes the positive-zero
branch, matching the `+0` produced by the content-box subtraction.) -/
def JSNum.div : JSNum → JSNum → JSNum
  | .nan, _ => .nan
  | _, .nan => .nan
  | .num a, .num b =>
      if b = 0 then (if a = 0 then .nan else if 0 < a then .inf else .negInf)
      else .num (a / b)
  | .num _, .inf => .num 0
  | .num _, .negInf => .num 0
  | .inf, .num b => if 0 ≤ b then .inf else .negInf
  | .negInf, .num b => if 0 ≤ b then .negInf else .inf
  | .inf, .inf => .nan
  | .inf, .negInf => .nan
  | .negInf, .inf => .nan
  | .negInf, .negInf => .nan

/-- JavaScript multiplication on the same value space. -/
def JSNum.mul : JSNum → JSNum → JSNum
  | .nan, _ => .nan
  | _, .nan => .nan
  | .num a, .num b => .num (a * b)
  | .num a, .inf => if a = 0 then .nan else if 0 < a then .inf else .negInf
  | .inf, .num a => if a = 0 then .nan else if 0 < a then .inf else .negInf
  | .num a, .negInf => if a = 0 then .nan else if 0 < a then .negInf else .inf
  | .negInf, .num a => if a = 0 then .nan else if 0 < a then .negInf else .inf
  | .inf, .inf => .inf
  | .inf, .negInf => .negInf
  | .negInf, .inf => .negInf
  | .negInf, .negInf => .inf

/-- Truthiness: `0` and `NaN` are falsy; every other number, infinities
included, is truthy. -/
def JSNum.truthy : JSNum → Bool
  | .num q => q != 0
  | .nan => false
  | .inf => true
  | .negInf => true

/-- Whether a value is an ordinary finite number. -/
def JSNum.isFinite : JSNum → Bool
  | .num _ => true
  | _ => false

def jsTruthyJS (x : Option JSNum) : Bool :=
  match x with
  | none => false
  | some q => q.truthy

/-- `getPageDimensions` over JavaScript numbers with special values. -/
def getPageDimensionsJS (heightProp widthProp : Option JSNum) (containerWidth ratio : JSNum) :
    JSNum × JSNum :=
  if jsTruthyJS heightProp && !jsTruthyJS widthProp then
    let height := heightProp.getD (.num 0)
    (height.div ratio, height)
  else
    let width := widthProp.getD containerWidth
    (width, width.mul ratio)

/-- The geometry computation of `renderPage` over JavaScript numbers: the
content-box extents are exact, the ratio division and the sizing arithmetic
follow IEEE-754.  The computation is total: the source performs no zero-area
check and reports no geometry error. -/
def resolveGeometryJS (view : PageView) (intrinsic rotationProp : Int)
    (heightProp widthProp : Option JSNum) (containerWidth : JSNum) : JSNum × JSNum :=
  let pageRotation := effectiveRotation rotationProp intrinsic
  let transposed := isTransposed pageRotation
  let ratio :=
    if transposed then (JSNum.num (viewWidth view)).div (.num (viewHeight view))
    else (JSNum.num (viewHeight view)).div (.num (viewWidth view))
  getPageDimensionsJS heightProp widthProp containerWidth ratio

/-- C5 counterexample: for the zero-width content box [0,0,0,800] with
requested width 300 the geometry computation completes without any error and
returns height = +Infinity, a non-finite dimension. -/
theorem zero_area_box_counterexample :
    resolveGeometryJS ⟨0, 0, 0, 800⟩ 0 0 none (some (.num 300)) (.num 1000)
      = (.num 300, .inf) ∧
    (resolveGeometryJS ⟨0, 0, 0, 800⟩ 0 0 none (some (.num 300)) (.num 1000)).2.isFinite
      = false := by
  have ht : isTransposed (effectiveRotation 0 0) = false := by decide
  have h1 : resolveGeometryJS ⟨0, 0, 0, 800⟩ 0 0 none (some (.num 300)) (.num 1000)
      = (.num 300, .inf) := by
    have hvw : viewWidth ⟨0, 0, 0, 800⟩ = 0 := by norm_num [viewWidth]
    have hvh : viewHeight ⟨0, 0, 0, 800⟩ = 800 := by norm_num [viewHeight]
    simp only [resolveGeometryJS, ht, Bool.false_eq_true, if_false, hvw, hvh]
    norm_num [JSNum.div, getPageDimensionsJS, jsTruthyJS, JSNum.mul]
  exact ⟨h1, by rw [h1]; rfl⟩

/-- C5 (amended): the code performs no zero-area check — for every content box
of zero width and positive height, with rotations 0 and a positive finite
requested width, the geometry computation completes (it is a total function
with no error signal) and yields width unchanged and height = +Infinity. -/
theorem zero_width_box_infinity (v : PageView) (w cw : ℚ)
    (hzero : viewWidth v = 0) (hpos : 0 < viewHeight v) (hw : 0 < w) :
    resolveGeometryJS v 0 0 none (some (.num w)) (.num cw) = (.num w, .inf) := by
  have ht : isTransposed (effectiveRotation 0 0) = false := by decide
  simp only [resolveGeometryJS, ht, Bool.false_eq_true, if_false]
  rw [hzero]
  have hdiv : (JSNum.num (viewHeight v)).div (.num 0) = .inf := by
    simp [JSNum.div, hpos.ne', hpos]
  rw [hdiv]
  simp [getPageDimensionsJS, jsTruthyJS, JSNum.mul, hw.ne', hw]

/-- Witness for the amended C5 statement at the content box [0,0,0,800] with
requested width 300. -/
theorem zero_width_box_infinity_witness :
    viewWidth ⟨0, 0, 0, 800⟩ = 0 ∧ (0 : ℚ) < viewHeight ⟨0, 0, 0, 800⟩ ∧ (0 : ℚ) < 300 ∧
    resolveGeometryJS ⟨0, 0, 0, 800⟩ 0 0 none (some (.num 300)) (.num 1000)
      = (.num 300, .inf) :=
  ⟨by norm_num [viewWidth], by norm_num [viewHeight], by norm_num,
    zero_width_box_infinity ⟨0, 0, 0, 800⟩ 300 1000
      (by norm_num [viewWidth]) (by norm_num [viewHeight]) (by norm_num)⟩

/-! ### Form field classification and placement (`src/PdfPage.vue`, `renderFormFields`) -/

/-- The slice of a pdf.js annotation consumed by `renderFormFields`
(`src/PdfPage.vue` lines 71-89). -/
structure Annot where
  rect : List ℚ
  subtype : String
  fieldName : String
  fieldType : String
  checkBox : Bool
  radioButton : Bool
  combo : Bool

/-- The classification switch of `renderFormFields` (`src/PdfPage.vue` lines
92-122): only annotations of subtype `Widget` get a category (`null`, i.e.
`none`, otherwise). -/
def fieldCategory (a : Annot) : Option String :=
  if a.subtype = "Widget" then
    if a.fieldType = "Tx" then some "Text Field"
    else if a.fieldType = "Btn" then
      (if a.checkBox then some "Checkbox"
       else if a.radioButton then some "Radio Button"
       else some "Push Button")
    else if a.fieldType = "Ch" then
      (if a.combo then some "Combo Box" else some "List Box")
    else if a.fieldType = "Sig" then some "Signature Field"
    else some "Unknown Field Type"
  else none

/-- Pixel dimensions of the layout viewport (`viewport.width` /
`viewport.height`). -/
structure ViewportDims where
  width : ℚ
  height : ℚ

/-- One absolutely positioned overlay div produced for a classified form
field (`src/PdfPage.vue` lines 136-155). -/
structure PlacedField where
  left : ℚ
  top : ℚ
  width : ℚ
  height : ℚ
  fieldName : String
  fieldCategory : String

/-- The outcome of `renderFormFields`: the placed overlay divs, and the final
width/height assigned to the form layer container (lines 157-159). -/
structure FormLayerResult where
  fields : List PlacedField
  layerWidth : ℚ
  layerHeight : ℚ

/-- `renderFormFields` (`src/PdfPage.vue` lines 71-160): each annotation's
rectangle is transformed by `convertToViewportRectangle`; a div is appended
only when a (truthy, always non-empty) field category was assigned, at
`left = x1`, `top = viewport.height - y2`, `width = x2 - x1`,
`height = y2 - y1`; finally the container is resized to the viewport's
dimensions. -/
def renderFormFields (annots : List Annot) (viewport : ViewportDims)
    (convertToViewportRectangle : List ℚ → ℚ × ℚ × ℚ × ℚ) : FormLayerResult :=
  let transformed := annots.map (fun a => (a, convertToViewportRectangle a.rect, fieldCategory a))
  let fields := transformed.filterMap (fun x =>
    match x with
    | (a, (x1, y1, x2, y2), some cat) =>
        some { left := x1, top := viewport.height - y2, width := x2 - x1, height := y2 - y1,
               fieldName := a.fieldName, fieldCategory := cat }
    | (_, _, none) => none)
  { fields := fields, layerWidth := viewport.width, layerHeight := viewport.height }

theorem fieldCategory_isSome (a : Annot) :
    (fieldCategory a).isSome = (a.subtype == "Widget") := by
  by_cases h : a.subtype = "Widget" <;>
    simp only [fieldCategory, h, if_true, if_false, beq_iff_eq, reduceIte] <;>
    [skip; simp [h]]
  split <;> [rfl; split <;> [split <;> [rfl; split <;> rfl]; split <;> [split <;> rfl; split <;> rfl]]]

theorem renderFormFields_length (annots : List Annot) (vp : ViewportDims)
    (convert : List ℚ → ℚ × ℚ × ℚ × ℚ) :
    (renderFormFields annots vp convert).fields.length
      = (annots.filter (fun a => a.subtype == "Widget")).length := by
  unfold renderFormFields
  induction annots with
  | nil => rfl
  | cons a t ih =>
      simp only [List.map_cons, List.filterMap_cons, List.filter_cons]
      rw [← fieldCategory_isSome a]
      cases hcat : fieldCategory a with
      | none => simpa [hcat] using ih
      | some cat => simpa [hcat] using ih

/-- C6: classification places exactly the subtype-`Widget` annotations, with
categories Tx ⇒ Text Field, Btn+checkBox ⇒ Checkbox, Btn+radioButton ⇒
Radio Button, Btn otherwise ⇒ Push Button, Ch+combo ⇒ Combo Box, Ch ⇒
List Box, Sig ⇒ Signature Field, anything else ⇒ Unknown Field Type; every
non-Widget annotation gets no category and is not placed. -/
theorem form_field_classification :
    (∀ a : Annot, a.subtype ≠ "Widget" → fieldCategory a = none) ∧
    (∀ a : Annot, a.subtype = "Widget" → a.fieldType = "Tx" →
        fieldCategory a = some "Text Field") ∧
    (∀ a : Annot, a.subtype = "Widget" → a.fieldType = "Btn" → a.checkBox = true →
        fieldCategory a = some "Checkbox") ∧
    (∀ a : Annot, a.subtype = "Widget" → a.fieldType = "Btn" → a.checkBox = false →
        a.radioButton = true → fieldCategory a = some "Radio Button") ∧
    (∀ a : Annot, a.subtype = "Widget" → a.fieldType = "Btn" → a.checkBox = false →
        a.radioButton = false → fieldCategory a = some "Push Button") ∧
    (∀ a : Annot, a.subtype = "Widget" → a.fieldType = "Ch" → a.combo = true →
        fieldCategory a = some "Combo Box") ∧
    (∀ a : Annot, a.subtype = "Widget" → a.fieldType = "Ch" → a.combo = false →
        fieldCategory a = some "List Box") ∧
    (∀ a : Annot, a.subtype = "Widget" → a.fieldType = "Sig" →
        fieldCategory a = some "Signature Field") ∧
    (∀ a : Annot, a.subtype = "Widget" → a.fieldType ≠ "Tx" → a.fieldType ≠ "Btn" →
        a.fieldType ≠ "Ch" → a.fieldType ≠ "Sig" →
        fieldCategory a = some "Unknown Field Type") ∧
    (∀ (annots : List Annot) (vp : ViewportDims) (convert : List ℚ → ℚ × ℚ × ℚ × ℚ),
        (renderFormFields annots vp convert).fields.length
          = (annots.filter (fun a => a.subtype == "Widget")).length) := by
  refine ⟨?_, ?_, ?_, ?_, ?_, ?_, ?_, ?_, ?_, renderFormFields_length⟩ <;>
    intro a <;> intros <;> simp_all [fieldCategory]

/-- Witness for C6 at a Widget checkbox, a Widget list box and a Link. -/
theorem form_field_classification_witness :
    fieldCategory ⟨[], "Widget", "cb", "Btn", true, false, false⟩ = some "Checkbox" ∧
    fieldCategory ⟨[], "Widget", "lb", "Ch", false, false, false⟩ = some "List Box" ∧
    fieldCategory ⟨[], "Link", "", "", false, false, false⟩ = none :=
  ⟨form_field_classification.2.2.1 _ rfl rfl rfl,
   form_field_classification.2.2.2.2.2.2.1 _ rfl rfl rfl,
   form_field_classification.1 _ (by decide)⟩

/-- C7: every placed form field is positioned from the transformed rectangle
with `left = x1`, `top = viewportHeight - y2`, `width = x2 - x1` and
`height = y2 - y1`, and after every derivation the overlay container gets
exactly the viewport's pixel dimensions. -/
theorem form_field_positioning :
    ∀ (annots : List Annot) (vp : ViewportDims) (convert : List ℚ → ℚ × ℚ × ℚ × ℚ),
      ((renderFormFields annots vp convert).layerWidth = vp.width ∧
       (renderFormFields annots vp convert).layerHeight = vp.height) ∧
      ∀ f ∈ (renderFormFields annots vp convert).fields,
        ∃ a ∈ annots,
          fieldCategory a = some f.fieldCategory ∧
          f.left = (convert a.rect).1 ∧
          f.top = vp.height - (convert a.rect).2.2.2 ∧
          f.width = (convert a.rect).2.2.1 - (convert a.rect).1 ∧
          f.height = (convert a.rect).2.2.2 - (convert a.rect).2.1 := by
  intro annots vp convert
  refine ⟨⟨rfl, rfl⟩, ?_⟩
  intro f hf
  unfold renderFormFields at hf
  simp only [List.mem_filterMap, List.mem_map] at hf
  obtain ⟨x, ⟨a, ha, rfl⟩, hx⟩ := hf
  refine ⟨a, ha, ?_⟩
  rcases hc : fieldCategory a with _ | cat
  · simp [hc] at hx
  · simp only [hc] at hx
    obtain ⟨rfl⟩ := Option.some_inj.mp hx
    exact ⟨rfl, rfl, rfl, rfl, rfl⟩

/-- Witness for C7 at one Widget text field with a concrete transform. -/
theorem form_field_positioning_witness :
    (renderFormFields [⟨[0, 0, 100, 200], "Widget", "f1", "Tx", false, false, false⟩]
        ⟨600, 800⟩ (fun _ => (10, 20, 110, 220))).layerHeight = (800 : ℚ) ∧
    ∃ a ∈ [(⟨[0, 0, 100, 200], "Widget", "f1", "Tx", false, false, false⟩ : Annot)],
      fieldCategory a = some "Text Field" ∧
      (10 : ℚ) = ((fun (_ : List ℚ) => ((10 : ℚ), (20 : ℚ), (110 : ℚ), (220 : ℚ))) a.rect).1 ∧
      (800 : ℚ) - 220 = (800 : ℚ) -
        ((fun (_ : List ℚ) => ((10 : ℚ), (20 : ℚ), (110 : ℚ), (220 : ℚ))) a.rect).2.2.2 ∧
      (110 : ℚ) - 10 =
        ((fun (_ : List ℚ) => ((10 : ℚ), (20 : ℚ), (110 : ℚ), (220 : ℚ))) a.rect).2.2.1 -
        ((fun (_ : List ℚ) => ((10 : ℚ), (20 : ℚ), (110 : ℚ), (220 : ℚ))) a.rect).1 ∧
      (220 : ℚ) - 20 =
        ((fun (_ : List ℚ) => ((10 : ℚ), (20 : ℚ), (110 : ℚ), (220 : ℚ))) a.rect).2.2.2 -
        ((fun (_ : List ℚ) => ((10 : ℚ), (20 : ℚ), (110 : ℚ), (220 : ℚ))) a.rect).2.1 := by
  have h := form_field_positioning
    [⟨[0, 0, 100, 200], "Widget", "f1", "Tx", false, false, false⟩]
    ⟨600, 800⟩ (fun _ => (10, 20, 110, 220))
  refine ⟨h.1.2, ?_⟩
  have hm := h.2 ⟨10, 800 - 220, 110 - 10, 220 - 20, "f1", "Text Field"⟩
    (by simp [renderFormFields, fieldCategory])
  exact hm

/-! ### Render task cancellation and error events (`src/PdfPage.vue`) -/

/-- A JavaScript error value as inspected by `handleRenderError`. -/
structure JsError where
  name : String
  message : String
deriving DecidableEq

/-- Events the page component can emit from its render path. -/
inductive PageEvent where
  | rendered
  | renderingFailed (e : JsError)
deriving DecidableEq

/-- `handleRenderError` (`src/PdfPage.vue` lines 292-300): a rejection whose
name is `RenderingCancelledException` is swallowed (no event is emitted); any
other error is surfaced as a `rendering-failed` event carrying the original
error. -/
def handleRenderError (e : JsError) : List PageEvent :=
  if e.name = "RenderingCancelledException" then []
  else [PageEvent.renderingFailed e]

/-- The ordered canvas-related side effects of `renderPage`
(`src/PdfPage.vue` lines 223-239): clear the canvas, cancel any previous
rendering task, then start the new raster render. -/
inductive RenderStep where
  | clearCanvas
  | cancelPreviousTask
  | startRasterRender
deriving DecidableEq

def renderPageSteps (hasPreviousTask : Bool) : List RenderStep :=
  [RenderStep.clearCanvas]
    ++ (if hasPreviousTask then [RenderStep.cancelPreviousTask] else [])
    ++ [RenderStep.startRasterRender]

/-- C2: when a previous rendering task exists it is cancelled at a step
strictly before the new raster render starts; a sub-render failure named
`RenderingCancelledException` is never emitted, and every other sub-render
failure is emitted as `rendering-failed` with the original error. -/
theorem cancel_before_start_and_cancellation_suppressed :
    (∀ hasPrev : Bool, hasPrev = true →
      ∃ i j : Nat, i < j ∧
        (renderPageSteps hasPrev)[i]? = some RenderStep.cancelPreviousTask ∧
        (renderPageSteps hasPrev)[j]? = some RenderStep.startRasterRender) ∧
    (∀ e : JsError, e.name = "RenderingCancelledException" → handleRenderError e = []) ∧
    (∀ e : JsError, e.name ≠ "RenderingCancelledException" →
      handleRenderError e = [PageEvent.renderingFailed e]) := by
  refine ⟨?_, ?_, ?_⟩
  · intro hasPrev h
    subst h
    exact ⟨1, 2, by norm_num, rfl, rfl⟩
  · intro e h
    simp [handleRenderError, h]
  · intro e h
    simp [handleRenderError, h]

/-- Witness for C2 with a live previous task, a cancellation rejection and an
ordinary rejection. -/
theorem cancel_before_start_witness :
    (∃ i j : Nat, i < j ∧
      (renderPageSteps true)[i]? = some RenderStep.cancelPreviousTask ∧
      (renderPageSteps true)[j]? = some RenderStep.startRasterRender) ∧
    handleRenderError ⟨"RenderingCancelledException", "cancelled"⟩ = [] ∧
    handleRenderError ⟨"TypeError", "boom"⟩
      = [PageEvent.renderingFailed ⟨"TypeError", "boom"⟩] :=
  ⟨cancel_before_start_and_cancellation_suppressed.1 true rfl,
   cancel_before_start_and_cancellation_suppressed.2.1 _ rfl,
   cancel_before_start_and_cancellation_suppressed.2.2 _ (by decide)⟩

/-! ### Page teardown (`src/PdfPage.vue`, `cleanup` and `onBeforeUnmount`) -/

/-- Modelled from the spec: `releaseCanvas` is imported from `src/utils`,
which is not among the sources; the spec says teardown "releases the drawing
surface", so releasing is modelled as the canvas content becoming empty. -/
def releaseCanvas (_canvas : List String) : List String := []

/-- Modelled from the spec: `emptyElement` is imported from `src/utils`, which
is not among the sources; the spec says teardown "clears overlay contents", so
it is modelled as removing all of the element's children. -/
def emptyElement (_children : List String) : List String := []

/-- The per-page mutable state touched by `cleanup`: the live rendering task,
the canvas content, the children of the three overlay containers, and the page
handle. -/
structure PageControllerState where
  renderingTask : Option Nat
  canvasContent : List String
  textLayerChildren : List String
  annotationLayerChildren : List String
  formLayerChildren : List String
  page : Option Nat
deriving DecidableEq

/-- `cleanup` (`src/PdfPage.vue` lines 303-330): cancels and drops the
rendering task, releases the canvas, empties the text and annotation layers,
and cleans up and drops the page handle.  The form layer is not touched. -/
def cleanup (s : PageControllerState) : PageControllerState :=
  { s with
    renderingTask := none
    canvasContent := releaseCanvas s.canvasContent
    textLayerChildren := emptyElement s.textLayerChildren
    annotationLayerChildren := emptyElement s.annotationLayerChildren
    page := none }

/-- C8 counterexample: tearing down a controller whose form layer holds a
placed field leaves the form overlay container non-empty — `cleanup` never
clears the form layer. -/
theorem cleanup_formLayer_counterexample :
    (cleanup ⟨some 1, ["raster"], ["text"], ["link"], ["field"], some 3⟩).formLayerChildren
      = ["field"] ∧ (["field"] : List String) ≠ [] :=
  ⟨rfl, by decide⟩

/-- C8 (amended): after `cleanup` there is no live rendering task, the canvas
is released, the text and annotation overlay containers are empty and the page
handle is released; the form overlay container is left untouched. -/
theorem cleanup_teardown_spec (s : PageControllerState) :
    (cleanup s).renderingTask = none ∧
    (cleanup s).canvasContent = [] ∧
    (cleanup s).textLayerChildren = [] ∧
    (cleanup s).annotationLayerChildren = [] ∧
    (cleanup s).page = none ∧
    (cleanup s).formLayerChildren = s.formLayerChildren :=
  ⟨rfl, rfl, rfl, rfl, rfl, rfl⟩

/-! ### Print title restoration (`src/VuePdfEmbed.vue`, `print`) -/

/-- JavaScript truthiness of a string: only the empty string is falsy. -/
def jsTruthyStr (s : String) : Bool := s != ""

/-- Outcome of one `print` invocation. -/
structure PrintOutcome where
  success : Bool
  finalDocumentTitle : String
deriving DecidableEq

/-- The title handling of `print` (`src/VuePdfEmbed.vue` lines 195-264).
Inside `try` the per-page loop runs first (`Promise.all`; a page render
failure rejects here, before any title change); then, when `filename` is
truthy, the local `title` saves `document.title` and the document title is
overridden with `filename`.  The `finally` block restores `document.title`
only when the local `title` is truthy. -/
def print (documentTitle filename : String) (pageRenderFails : Bool) : PrintOutcome :=
  if pageRenderFails then
    { success := false, finalDocumentTitle := documentTitle }
  else
    let savedTitle : Option String :=
      if jsTruthyStr filename then some documentTitle else none
    let overriddenTitle :=
      if jsTruthyStr filename then filename else documentTitle
    let finalTitle :=
      match savedTitle with
      | some t => if jsTruthyStr t then t else overriddenTitle
      | none => overriddenTitle
    { success := true, finalDocumentTitle := finalTitle }

/-- C9 counterexample: with an empty original document title and filename
"file.pdf", a successful print overrides the title but never restores it —
`print` returns with the document title still equal to the filename. -/
theorem print_title_counterexample :
    (print "" "file.pdf" false).finalDocumentTitle = "file.pdf" ∧
    jsTruthyStr "file.pdf" = true ∧
    (print "" "file.pdf" false).finalDocumentTitle ≠ "" := by
  refine ⟨rfl, rfl, by decide⟩

/-- C9 (amended): whenever the original document title is non-empty, `print`
restores it before returning, on the success path and on every failure path
(on a per-page render failure the title was never overridden); when the
original title is the empty string, a successful print with a filename leaves
the filename as the document title. -/
theorem print_restores_nonempty_title (documentTitle filename : String)
    (pageRenderFails : Bool) (h : documentTitle ≠ "") :
    (print documentTitle filename pageRenderFails).finalDocumentTitle = documentTitle := by
  unfold print
  cases pageRenderFails with
  | true => rfl
  | false =>
      by_cases hf : filename = "" <;> simp [jsTruthyStr, hf, h]

/-- Witness for the amended C9 statement: title "My Title", filename
"file.pdf", on both the failing and the successful path. -/
theorem print_restores_nonempty_title_witness :
    ("My Title" : String) ≠ "" ∧
    (print "My Title" "file.pdf" true).finalDocumentTitle = "My Title" ∧
    (print "My Title" "file.pdf" false).finalDocumentTitle = "My Title" :=
  ⟨by decide, print_restores_nonempty_title _ _ _ (by decide),
    print_restores_nonempty_title _ _ _ (by decide)⟩

/-! ### The document-level rendered event (`src/VuePdfEmbed.vue`) -/

/-- The `doc` watcher (`src/VuePdfEmbed.vue` lines 118-136): a loaded document
with `numPages` pages yields `[page]` when the `page` prop is truthy and
`[1..numPages]` otherwise; no document yields the empty sequence. -/
def pageNumsForDoc (pageProp : Option Int) (newDoc : Option Int) : List Int :=
  match newDoc with
  | some numPages =>
      if pageProp.getD 0 ≠ 0 then [pageProp.getD 0]
      else List.map (fun i => Int.ofNat (i + 1)) (List.range numPages.toNat)
  | none => []

/-- The `pageNums` watcher (`src/VuePdfEmbed.vue` lines 303-311): on every
(immediate or subsequent) firing it emits the document-level `rendered` event
iff the page-number sequence is non-empty.  The per-page render-completion
state is an explicit argument to record that the handler never consults it. -/
def renderedEmitted (pageNums : List Int) (_pageRenderCompleted : Int → Bool) : Bool :=
  decide (0 < pageNums.length)

/-- C10: the document-level rendered event is emitted exactly when the
page-number sequence is non-empty, independently of which individual page
renders have completed; in particular any loaded document with at least one
page triggers it, and an absent document never does. -/
theorem rendered_event_from_nonempty_pageNums :
    (∀ (ns : List Int) (f g : Int → Bool), renderedEmitted ns f = renderedEmitted ns g) ∧
    (∀ (ns : List Int) (f : Int → Bool), renderedEmitted ns f = true ↔ ns ≠ []) ∧
    (∀ (pageProp : Option Int) (numPages : Int) (f : Int → Bool), 0 < numPages →
        renderedEmitted (pageNumsForDoc pageProp (some numPages)) f = true) ∧
    (∀ f : Int → Bool, renderedEmitted (pageNumsForDoc none none) f = false) := by
  refine ⟨fun ns f g => rfl, ?_, ?_, fun f => rfl⟩
  · intro ns f
    simp [renderedEmitted, List.length_pos]
  · intro pageProp numPages f h
    have hlen : (pageNumsForDoc pageProp (some numPages)).length ≠ 0 := by
      by_cases hp : pageProp.getD 0 = 0
      · simp only [pageNumsForDoc, hp, ne_eq, not_true_eq_false, if_false,
          List.length_map, List.length_range]
        omega
      · simp [pageNumsForDoc, hp]
    unfold renderedEmitted
    rw [decide_eq_true_eq]
    omega

/-- Witness for C10 at a three-page document with no page prop and no page
render completed. -/
theorem rendered_event_witness :
    (0 : Int) < 3 ∧
    renderedEmitted (pageNumsForDoc none (some 3)) (fun _ => false) = true :=
  ⟨by decide,
    rendered_event_from_nonempty_pageNums.2.2.1 none 3 (fun _ => false) (by decide)⟩

end VuePdfEmbed
